import Mathlib

/-!
Verification development for the viggo driving-companion repository.

The development shallowly embeds the two algorithmic cores of the repository:

* the `SpeedCalculator` class of the speed-calculation utility
  (sliding-window, physics-constrained speed estimation from GPS fixes),
* the alarm state machine of the notification utility
  (`playAlarmSound` / `stopAlarmSound` / `resetAlarmState`), the debounced
  speed-limit monitor of the `SpeedAlert` component, and the proximity
  check of the `LocationContext` `updateLocation` handler.

Numbers are modelled as rationals.  The transcendental functions of the
JavaScript `Math` library (`sin`, `cos`, `sqrt`, `atan2`, `PI`), which are
environment primitives and not part of the repository, are passed in as an
explicit `MathLib` record; every theorem below is independent of the
particular instance, and concrete evaluations use an arbitrary instance on
code paths that never consult it.
-/

/-- The transcendental functions of the JavaScript `Math` library, taken as
an abstract parameter of the embedding. -/
structure MathLib where
  sin : ℚ → ℚ
  cos : ℚ → ℚ
  sqrt : ℚ → ℚ
  atan2 : ℚ → ℚ → ℚ
  pi : ℚ

/-- An arbitrary instance of `MathLib`, used to evaluate code paths that do
not consult the transcendental functions. -/
def MathLib.zero : MathLib :=
  { sin := fun _ => 0
    cos := fun _ => 0
    sqrt := fun _ => 0
    atan2 := fun _ _ => 0
    pi := 0 }

/-- A GPS location fix (the `Location` interface).  All fields that the
speed-calculation code checks for presence are modelled as optional; `speed`
and `accuracy` are optional in the source interface as well. -/
structure Location where
  latitude : Option ℚ
  longitude : Option ℚ
  accuracy : Option ℚ
  speed : Option ℚ
  timestamp : Option ℚ
deriving DecidableEq

/-- A speed sample retained in the calculator's sliding window
(the `SpeedSample` interface). -/
structure SpeedSample where
  speed : ℚ
  timestamp : ℚ
  confidence : ℚ
deriving DecidableEq

/-- `WINDOW_SIZE = 8`: capacity of the sliding windows. -/
def WINDOW_SIZE : ℕ := 8

/-- `MAX_ACCELERATION = 5.0` (m/s²). -/
def MAX_ACCELERATION : ℚ := 5.0

/-- `DEFAULT_TIME_WINDOW_MS = 5000`. -/
def DEFAULT_TIME_WINDOW_MS : ℚ := 5000

/-- JavaScript `x || d` on an optional number: `undefined` and the falsy
value `0` fall back to the default. -/
def orFalsy (x : Option ℚ) (d : ℚ) : ℚ :=
  match x with
  | some v => if v = 0 then d else v
  | none => d

/-- JavaScript `Math.round`: `⌊x + 1/2⌋` (ties round toward `+∞`). -/
def jsRound (x : ℚ) : ℚ := (⌊x + 1/2⌋ : ℤ)

/-- `Math.round(x * 10) / 10`: round to one decimal place. -/
def round1 (x : ℚ) : ℚ := jsRound (x * 10) / 10

/-- `xs.push(x)` followed by `if (xs.length > WINDOW_SIZE) xs.shift()`. -/
def pushWindow {α : Type} (xs : List α) (x : α) : List α :=
  let ys := xs ++ [x]
  if ys.length > WINDOW_SIZE then ys.drop 1 else ys

/-- The mutable state of the `SpeedCalculator` class.  The `debugData`
field of the source, which is written only for diagnostics and never read
by the algorithm, is not modelled. -/
structure SpeedCalculator where
  locationHistory : List Location
  speedHistory : List SpeedSample
  lastCalculatedSpeed : ℚ
  lastTimestamp : ℚ
  calibrationFactor : ℚ
deriving DecidableEq

namespace SpeedCalculator

/-- A freshly constructed `SpeedCalculator` (field initializers). -/
def init : SpeedCalculator :=
  { locationHistory := []
    speedHistory := []
    lastCalculatedSpeed := 0
    lastTimestamp := 0
    calibrationFactor := 1 }

/-- `this.locationHistory[this.locationHistory.length - 1]?.timestamp || Date.now()`:
the timestamp of the newest stored location, falling back to the wall clock
when the history is empty or the timestamp falsy.  Shared by
`calculateCurrentSpeed` (line 95) and `applyPhysicsConstraints` (line 184). -/
def lastHistoryTime (s : SpeedCalculator) (dateNow : ℚ) : ℚ :=
  match s.locationHistory.getLast? with
  | some loc => orFalsy loc.timestamp dateNow
  | none => dateNow

/-- `toRadians`: convert degrees to radians. -/
def toRadians (M : MathLib) (degrees : ℚ) : ℚ := degrees * M.pi / 180

/-- `calculateSpeedBetweenPoints`: haversine distance between two stored
fixes divided by elapsed time, in km/h. -/
def calculateSpeedBetweenPoints (M : MathLib) (start stop : Location) : ℚ :=
  let R : ℚ := 6371000
  let phi1 := toRadians M (start.latitude.getD 0)
  let phi2 := toRadians M (stop.latitude.getD 0)
  let dphi := toRadians M (stop.latitude.getD 0 - start.latitude.getD 0)
  let dlam := toRadians M (stop.longitude.getD 0 - start.longitude.getD 0)
  let a := M.sin (dphi / 2) * M.sin (dphi / 2) +
      M.cos phi1 * M.cos phi2 * M.sin (dlam / 2) * M.sin (dlam / 2)
  let c := 2 * M.atan2 (M.sqrt a) (M.sqrt (1 - a))
  let distance := R * c
  let timeDiff := (stop.timestamp.getD 0 - start.timestamp.getD 0) / 1000 / 60 / 60
  if timeDiff ≤ 0 then 0 else (distance / 1000) / timeDiff

/-- `applyPhysicsConstraints`: cap the change of the raw speed relative to
the last emitted speed by `MAX_ACCELERATION` per second of elapsed time. -/
def applyPhysicsConstraints (s : SpeedCalculator) (rawSpeed : ℚ) (dateNow : ℚ) : ℚ :=
  if s.lastTimestamp = 0 then rawSpeed
  else
    let timeDiff := (lastHistoryTime s dateNow - s.lastTimestamp) / 1000
    if timeDiff ≤ 0 then s.lastCalculatedSpeed
    else
      let maxSpeedChange := MAX_ACCELERATION * timeDiff
      if |rawSpeed - s.lastCalculatedSpeed| > maxSpeedChange then
        if rawSpeed > s.lastCalculatedSpeed then s.lastCalculatedSpeed + maxSpeedChange
        else s.lastCalculatedSpeed - maxSpeedChange
      else rawSpeed

/-- The loop body of `calculateCurrentSpeed`: accumulate
`(weightedSpeedSum, totalWeight, avgConfidence)` over one adjacent segment
of the location history, skipping segments with falsy timestamps or an
elapsed time below 150 ms. -/
def segmentAccum (M : MathLib) (currentTime : ℚ) (acc : ℚ × ℚ × ℚ)
    (seg : Location × Location) : ℚ × ℚ × ℚ :=
  let start := seg.1
  let stop := seg.2
  if start.timestamp = none ∨ start.timestamp = some 0 ∨
      stop.timestamp = none ∨ stop.timestamp = some 0 then acc
  else
    let timeDiff := stop.timestamp.getD 0 - start.timestamp.getD 0
    if timeDiff < 150 then acc
    else
      let segmentSpeed := calculateSpeedBetweenPoints M start stop
      let recency := 1 - (currentTime - stop.timestamp.getD 0) / DEFAULT_TIME_WINDOW_MS
      let recencyWeight := max 0.1 (min 1 recency)
      let accuracy1 := orFalsy start.accuracy 100
      let accuracy2 := orFalsy stop.accuracy 100
      let accuracyFactor := min 1 (10 / max accuracy1 accuracy2)
      let weight := recencyWeight * recencyWeight * (0.6 + 0.4 * accuracyFactor)
      (acc.1 + segmentSpeed * weight, acc.2.1 + weight, acc.2.2 + accuracyFactor)

/-- The totals accumulated by the segment loop of `calculateCurrentSpeed`:
`(weightedSpeedSum, totalWeight, summed accuracy factors)`. -/
def segmentTotals (M : MathLib) (s : SpeedCalculator) (dateNow : ℚ) : ℚ × ℚ × ℚ :=
  (s.locationHistory.zip s.locationHistory.tail).foldl
    (segmentAccum M (lastHistoryTime s dateNow)) (0, 0, 0)

/-- `calculateCurrentSpeed`: the sliding-window weighted average of the
adjacent-segment speeds, physics-constrained, calibrated, and rounded to
one decimal place.  Returns the updated state and the returned speed. -/
def calculateCurrentSpeed (M : MathLib) (s : SpeedCalculator) (dateNow : ℚ) :
    SpeedCalculator × ℚ :=
  if s.locationHistory.length < 2 then (s, 0)
  else
    let currentTime := lastHistoryTime s dateNow
    let acc := segmentTotals M s dateNow
    if acc.2.1 > 0 then
      let avgSpeed := acc.1 / acc.2.1
      let avgConfidence := acc.2.2 / ((s.locationHistory.length : ℚ) - 1)
      let speedSample : SpeedSample :=
        { speed := applyPhysicsConstraints s avgSpeed dateNow
          timestamp := currentTime
          confidence := avgConfidence }
      let s1 := { s with speedHistory := pushWindow s.speedHistory speedSample }
      let calibratedSpeed := speedSample.speed * s1.calibrationFactor
      let s2 := { s1 with
        lastCalculatedSpeed := round1 calibratedSpeed
        lastTimestamp := currentTime }
      (s2, s2.lastCalculatedSpeed)
    else
      (s, s.lastCalculatedSpeed)

/-- The speed sample recorded on the direct-sensor path of `addLocation`:
GPS speed with a confidence derived from the accuracy
(`location.accuracy ? Math.min(1, 10 / location.accuracy) : 0.7`,
where a falsy accuracy falls back to `0.7`). -/
def directSample (loc : Location) (sp : ℚ) : SpeedSample :=
  { speed := sp
    timestamp := loc.timestamp.getD 0
    confidence :=
      match loc.accuracy with
      | some acc => if acc = 0 then 0.7 else min 1 (10 / acc)
      | none => 0.7 }

/-- The tail of `addLocation` taken when no usable sensor speed is present:
append the fix to the location history (bounded by `WINDOW_SIZE`) and run
the sliding-window computation once at least two fixes are stored. -/
def addLocationDerived (M : MathLib) (s : SpeedCalculator) (loc : Location)
    (dateNow : ℚ) : SpeedCalculator × ℚ :=
  let s1 := { s with locationHistory := pushWindow s.locationHistory loc }
  if s1.locationHistory.length < 2 then (s1, 0)
  else calculateCurrentSpeed M s1 dateNow

/-- `addLocation`: the public entry point of the calculator.  A missing
fix, or a fix with a falsy timestamp or missing coordinates, is rejected
and the previously emitted speed returned with the state unchanged.  A fix
with a sensor speed in `[0, 200)` takes the direct path (blend with the
previous estimate when one exists); otherwise the derived path runs. -/
def addLocation (M : MathLib) (s : SpeedCalculator) (location : Option Location)
    (dateNow : ℚ) : SpeedCalculator × ℚ :=
  match location with
  | none => (s, s.lastCalculatedSpeed)
  | some loc =>
    if loc.timestamp = none ∨ loc.timestamp = some 0 ∨
        loc.latitude = none ∨ loc.longitude = none then
      (s, s.lastCalculatedSpeed)
    else
      match loc.speed with
      | some sp =>
        if 0 ≤ sp ∧ sp < 200 then
          let s1 := { s with speedHistory := pushWindow s.speedHistory (directSample loc sp) }
          if s1.lastCalculatedSpeed > (0 : ℚ) ∧ s1.speedHistory.length > 1 then
            let blendedSpeed := sp * 0.7 + s1.lastCalculatedSpeed * 0.3
            let s2 := { s1 with
              lastCalculatedSpeed := applyPhysicsConstraints s1 blendedSpeed dateNow
              lastTimestamp := loc.timestamp.getD 0 }
            (s2, round1 s2.lastCalculatedSpeed)
          else
            let s2 := { s1 with
              lastCalculatedSpeed := sp
              lastTimestamp := loc.timestamp.getD 0 }
            (s2, round1 s2.lastCalculatedSpeed)
        else addLocationDerived M s loc dateNow
      | none => addLocationDerived M s loc dateNow

/-- `setCalibrationFactor`: accept the factor only when `0.5 < f < 1.5`. -/
def setCalibrationFactor (s : SpeedCalculator) (factor : ℚ) : SpeedCalculator :=
  if 0.5 < factor ∧ factor < 1.5 then { s with calibrationFactor := factor } else s

/-- `getSpeed`: return the last calculated speed. -/
def getSpeed (s : SpeedCalculator) : ℚ := s.lastCalculatedSpeed

/-- `reset`: clear the histories, the last speed and the last timestamp
(the calibration factor is not touched by the source). -/
def reset (s : SpeedCalculator) : SpeedCalculator :=
  { s with
    locationHistory := []
    speedHistory := []
    lastCalculatedSpeed := 0
    lastTimestamp := 0 }

end SpeedCalculator

/-!  The alarm state machine of the notification utility.

The audio element, vibration hardware, timers and browser notifications are
external collaborators; the embedded state is the pair of module-level flags
`isAlarmActive` / `isAlarmManuallyDisabled`, and each operation additionally
returns the list of values broadcast to the registered alarm listeners by
`notifyAlarmListeners` during the call (one entry per broadcast, carrying the
then-current `isAlarmActive`). -/

/-- The module-level alarm flags of the notification utility. -/
structure AlarmState where
  isAlarmActive : Bool
  isAlarmManuallyDisabled : Bool
deriving DecidableEq

/-- The alarm flags at page load: not active, not manually disabled. -/
def AlarmState.fresh : AlarmState :=
  { isAlarmActive := false, isAlarmManuallyDisabled := false }

/-- `playAlarmSound`: no-op when already running or manually disabled;
otherwise set the active flag and notify the listeners. -/
def playAlarmSound (s : AlarmState) : AlarmState × List Bool :=
  if s.isAlarmActive || s.isAlarmManuallyDisabled then (s, [])
  else
    let s1 := { s with isAlarmActive := true }
    (s1, [s1.isAlarmActive])

/-- `stopAlarmSound(permanently)`: no-op when not active; otherwise clear
the active flag, latch the manual-disable flag when `permanently`, and
notify the listeners. -/
def stopAlarmSound (s : AlarmState) (permanently : Bool) : AlarmState × List Bool :=
  if !s.isAlarmActive then (s, [])
  else
    let s1 := { s with
      isAlarmActive := false
      isAlarmManuallyDisabled := if permanently then true else s.isAlarmManuallyDisabled }
    (s1, [s1.isAlarmActive])

/-- `resetAlarmState`: clear the manual-disable latch. -/
def resetAlarmState (s : AlarmState) : AlarmState :=
  { s with isAlarmManuallyDisabled := false }

/-- `canTriggerAlarm`. -/
def canTriggerAlarm (s : AlarmState) : Bool := !s.isAlarmManuallyDisabled

/-- `showProximityNotification`: suppressed while the alarm is manually
disabled, otherwise plays the alarm (the browser notification itself is an
external side effect). -/
def showProximityNotification (s : AlarmState) : AlarmState × List Bool :=
  if s.isAlarmManuallyDisabled then (s, [])
  else playAlarmSound s

/-- Calls into the alarm module, for reasoning about call sequences. -/
inductive AlarmEvent where
  | play : AlarmEvent
  | stop : Bool → AlarmEvent
  | reset : AlarmEvent
deriving DecidableEq

/-- One call into the alarm module. -/
def alarmStep (s : AlarmState) (e : AlarmEvent) : AlarmState × List Bool :=
  match e with
  | AlarmEvent.play => playAlarmSound s
  | AlarmEvent.stop p => stopAlarmSound s p
  | AlarmEvent.reset => (resetAlarmState s, [])

/-- A sequence of calls into the alarm module, concatenating the listener
broadcasts. -/
def alarmRun (s : AlarmState) : List AlarmEvent → AlarmState × List Bool
  | [] => (s, [])
  | e :: rest =>
    let r := alarmStep s e
    let r2 := alarmRun r.1 rest
    (r2.1, r.2 ++ r2.2)

/-!  The speed-limit monitor of the `SpeedAlert` component
(current revision: permanent stop button, manual-disable guard). -/

/-- `SPEED_LIMIT = 60` km/h. -/
def SPEED_LIMIT : ℚ := 60

/-- `THRESHOLD_TIME_MS = 2000`. -/
def THRESHOLD_TIME_MS : ℚ := 2000

/-- The state of the speed-limit monitor: the `isOverSpeedLimit` React
state, the `overspeedStart` and `alarmTriggeredRef` refs, and the alarm
module flags it calls into. -/
structure MonitorState where
  isOverSpeedLimit : Bool
  overspeedStart : Option ℚ
  alarmTriggered : Bool
  alarm : AlarmState
deriving DecidableEq

/-- The monitor at mount time over a fresh alarm module. -/
def MonitorState.fresh : MonitorState :=
  { isOverSpeedLimit := false
    overspeedStart := none
    alarmTriggered := false
    alarm := AlarmState.fresh }

/-- One run of the `SpeedAlert` debounce effect for a speed sample
observed at wall-clock time `now`. -/
def monitorStep (m : MonitorState) (speed now : ℚ) : MonitorState × List Bool :=
  if m.alarm.isAlarmManuallyDisabled then
    ({ m with isOverSpeedLimit := false }, [])
  else if speed > SPEED_LIMIT ∧ ¬m.alarmTriggered then
    match m.overspeedStart with
    | none => ({ m with overspeedStart := some now }, [])
    | some t0 =>
      if now - t0 > THRESHOLD_TIME_MS then
        let r := playAlarmSound m.alarm
        ({ m with isOverSpeedLimit := true, alarmTriggered := true, alarm := r.1 }, r.2)
      else (m, [])
  else if speed ≤ SPEED_LIMIT * 0.95 then
    let m1 := { m with overspeedStart := none }
    if m1.isOverSpeedLimit then
      let r := stopAlarmSound m1.alarm false
      ({ m1 with isOverSpeedLimit := false, alarmTriggered := false, alarm := r.1 }, r.2)
    else (m1, [])
  else (m, [])

/-- A sequence of `(speed, now)` samples through the monitor,
concatenating the listener broadcasts. -/
def monitorRun (m : MonitorState) : List (ℚ × ℚ) → MonitorState × List Bool
  | [] => (m, [])
  | p :: rest =>
    let r := monitorStep m p.1 p.2
    let r2 := monitorRun r.1 rest
    (r2.1, r.2 ++ r2.2)

/-!  The proximity check of the `LocationContext` `updateLocation` handler
(current revision), together with the distance utility it calls. -/

/-- `calculateDistance` of the location utility: haversine distance in
meters. -/
def calculateDistance (M : MathLib) (location1 location2 : Location) : ℚ :=
  let R : ℚ := 6371000
  let phi1 := location1.latitude.getD 0 * M.pi / 180
  let phi2 := location2.latitude.getD 0 * M.pi / 180
  let dphi := (location2.latitude.getD 0 - location1.latitude.getD 0) * M.pi / 180
  let dlam := (location2.longitude.getD 0 - location1.longitude.getD 0) * M.pi / 180
  let a := M.sin (dphi / 2) * M.sin (dphi / 2) +
      M.cos phi1 * M.cos phi2 * M.sin (dlam / 2) * M.sin (dlam / 2)
  let c := 2 * M.atan2 (M.sqrt a) (M.sqrt (1 - a))
  R * c

/-- `isWithinRadius`: haversine distance at most the radius. -/
def isWithinRadius (M : MathLib) (userLocation collegeLocation : Location)
    (radius : ℚ) : Bool :=
  calculateDistance M userLocation collegeLocation ≤ radius

/-- The destination configured in the tracking session. -/
structure CollegeInfo where
  location : Location
  notificationRadius : ℚ
deriving DecidableEq

/-- The per-session state read and written by the proximity logic of
`updateLocation`: the owned speed calculator, the `isNearCollege` and
`hasShownProximityAlert` React state, the `lastProximityCheckRef` ref, and
the alarm module flags.  `proximityTriggerCount` instruments the model: it
counts the calls made to `showProximityNotification`. -/
structure SessionState where
  speedCalc : SpeedCalculator
  isNearCollege : Bool
  hasShownProximityAlert : Bool
  lastProximityCheck : ℚ
  alarm : AlarmState
  proximityTriggerCount : ℕ
deriving DecidableEq

/-- A freshly mounted tracking session over a fresh alarm module. -/
def SessionState.fresh : SessionState :=
  { speedCalc := SpeedCalculator.init
    isNearCollege := false
    hasShownProximityAlert := false
    lastProximityCheck := 0
    alarm := AlarmState.fresh
    proximityTriggerCount := 0 }

/-- `updateLocation`: reject fixes without coordinates, feed the fix to the
speed calculator, then (throttled to once per 2000 ms) evaluate proximity
to the destination and fire the proximity alarm on a not-near to near
transition, at most once per session and only while alarms are not
manually disabled. -/
def updateLocation (M : MathLib) (college : CollegeInfo) (s : SessionState)
    (location : Option Location) (dateNow : ℚ) : SessionState × List Bool :=
  match location with
  | none => (s, [])
  | some loc =>
    if loc.latitude = none ∨ loc.longitude = none then (s, [])
    else
      let s1 := { s with speedCalc := (SpeedCalculator.addLocation M s.speedCalc (some loc) dateNow).1 }
      if dateNow - s1.lastProximityCheck > 2000 then
        let s2 := { s1 with lastProximityCheck := dateNow }
        let nearCollege := isWithinRadius M loc college.location college.notificationRadius
        if nearCollege ∧ ¬s2.isNearCollege then
          let s3 := { s2 with isNearCollege := true }
          if ¬s3.hasShownProximityAlert ∧ ¬s3.alarm.isAlarmManuallyDisabled then
            let r := showProximityNotification s3.alarm
            ({ s3 with
                alarm := r.1
                hasShownProximityAlert := true
                proximityTriggerCount := s3.proximityTriggerCount + 1 }, r.2)
          else (s3, [])
        else if ¬nearCollege ∧ s2.isNearCollege then
          ({ s2 with isNearCollege := false }, [])
        else (s2, [])
      else (s1, [])

/-- A sequence of `(fix, now)` inputs through `updateLocation`,
concatenating the listener broadcasts. -/
def sessionRun (M : MathLib) (college : CollegeInfo) (s : SessionState) :
    List (Option Location × ℚ) → SessionState × List Bool
  | [] => (s, [])
  | p :: rest =>
    let r := updateLocation M college s p.1 p.2
    let r2 := sessionRun M college r.1 rest
    (r2.1, r.2 ++ r2.2)

/-!  Helper lemmas about the alarm state machine. -/

/-- `playAlarmSound` is a no-op, with no listener broadcast, whenever the
alarm is already active or manually disabled. -/
theorem playAlarmSound_noop (s : AlarmState)
    (h : s.isAlarmActive = true ∨ s.isAlarmManuallyDisabled = true) :
    playAlarmSound s = (s, []) := by
  rcases h with h | h <;> simp [playAlarmSound, h]

/-- `playAlarmSound` from an idle, enabled state activates the alarm and
broadcasts exactly one `true`. -/
theorem playAlarmSound_fires (s : AlarmState)
    (ha : s.isAlarmActive = false) (hd : s.isAlarmManuallyDisabled = false) :
    playAlarmSound s = ({ s with isAlarmActive := true }, [true]) := by
  simp [playAlarmSound, ha, hd]

/-- A sequence consisting only of `play` calls leaves a manually disabled
alarm state untouched and broadcasts nothing. -/
theorem alarmRun_play_disabled (evs : List AlarmEvent) :
    ∀ s : AlarmState, s.isAlarmManuallyDisabled = true →
      (∀ e ∈ evs, e = AlarmEvent.play) → alarmRun s evs = (s, []) := by
  induction evs with
  | nil => intro s _ _; rfl
  | cons e rest ih =>
    intro s hd hall
    have he : e = AlarmEvent.play := hall e (List.mem_cons_self e rest)
    subst he
    have hstep : alarmStep s AlarmEvent.play = (s, []) :=
      playAlarmSound_noop s (Or.inr hd)
    simp [alarmRun, hstep, ih s hd fun e he => hall e (List.mem_cons_of_mem _ he)]

/-- Claim C4: after `stopAlarmSound(permanently := true)` is called while the
alarm is sounding, the manual-disable latch is set, and every subsequent
`playAlarmSound` call is a no-op that changes no state and broadcasts no
`active = true` listener value, until `resetAlarmState` clears the latch
(after which `playAlarmSound` sounds the alarm again). -/
theorem C4_permanent_stop_blocks_play_until_reset (s : AlarmState)
    (h : s.isAlarmActive = true) :
    (stopAlarmSound s true).1.isAlarmManuallyDisabled = true ∧
    (stopAlarmSound s true).1.isAlarmActive = false ∧
    (∀ evs : List AlarmEvent, (∀ e ∈ evs, e = AlarmEvent.play) →
      alarmRun (stopAlarmSound s true).1 evs = ((stopAlarmSound s true).1, [])) ∧
    (resetAlarmState (stopAlarmSound s true).1).isAlarmManuallyDisabled = false ∧
    (playAlarmSound (resetAlarmState (stopAlarmSound s true).1)).1.isAlarmActive = true ∧
    (playAlarmSound (resetAlarmState (stopAlarmSound s true).1)).2 = [true] := by
  have hstop : stopAlarmSound s true =
      ({ s with isAlarmActive := false, isAlarmManuallyDisabled := true }, [false]) := by
    simp [stopAlarmSound, h]
  refine ⟨by simp [hstop], by simp [hstop], ?_, by simp [hstop, resetAlarmState], ?_, ?_⟩
  · intro evs hall
    exact alarmRun_play_disabled evs _ (by simp [hstop]) hall
  · simp [hstop, resetAlarmState, playAlarmSound]
  · simp [hstop, resetAlarmState, playAlarmSound]

/-- Witness for C4 at a concrete sounding state and two subsequent `play`
calls. -/
theorem C4_witness :
    alarmRun (stopAlarmSound (AlarmState.mk true false) true).1
      [AlarmEvent.play, AlarmEvent.play] =
      ((stopAlarmSound (AlarmState.mk true false) true).1, []) :=
  (C4_permanent_stop_blocks_play_until_reset (AlarmState.mk true false) rfl).2.2.1
    [AlarmEvent.play, AlarmEvent.play] (by decide)

/-- Claim C5: two `playAlarmSound` calls with no intervening stop, started
from an idle enabled state, broadcast exactly one `active = true` listener
value in total; and `playAlarmSound` while the alarm is already active or
manually disabled is a no-op emitting nothing. -/
theorem C5_play_idempotent :
    (∀ s : AlarmState, s.isAlarmActive = false → s.isAlarmManuallyDisabled = false →
      (playAlarmSound s).2 ++ (playAlarmSound (playAlarmSound s).1).2 = [true]) ∧
    (∀ s : AlarmState, s.isAlarmActive = true ∨ s.isAlarmManuallyDisabled = true →
      playAlarmSound s = (s, [])) := by
  constructor
  · intro s ha hd
    rw [playAlarmSound_fires s ha hd]
    rw [playAlarmSound_noop { s with isAlarmActive := true } (Or.inl rfl)]
    rfl
  · exact playAlarmSound_noop

/-- Witness for C5: a double play from the idle enabled state, and a play
on an already-active state. -/
theorem C5_witness :
    (playAlarmSound (AlarmState.mk false false)).2 ++
      (playAlarmSound (playAlarmSound (AlarmState.mk false false)).1).2 = [true] ∧
    playAlarmSound (AlarmState.mk true false) = (AlarmState.mk true false, []) :=
  ⟨C5_play_idempotent.1 (AlarmState.mk false false) rfl rfl,
   C5_play_idempotent.2 (AlarmState.mk true false) (Or.inl rfl)⟩

/-- Claim C10: `stopAlarmSound(permanently := true)` while no alarm is
active is a complete no-op — the manual-disable latch is not set, no
listener value is broadcast, the state is unchanged — and a subsequent
`playAlarmSound` still sounds the alarm (when the latch was not already
set). -/
theorem C10_stop_when_idle_noop (s : AlarmState) (h : s.isAlarmActive = false) :
    stopAlarmSound s true = (s, []) ∧
    (s.isAlarmManuallyDisabled = false →
      (playAlarmSound (stopAlarmSound s true).1).1.isAlarmActive = true ∧
      (playAlarmSound (stopAlarmSound s true).1).2 = [true]) := by
  have hstop : stopAlarmSound s true = (s, []) := by simp [stopAlarmSound, h]
  refine ⟨hstop, fun hd => ?_⟩
  rw [hstop]
  rw [playAlarmSound_fires s h hd]
  exact ⟨rfl, rfl⟩

/-- Witness for C10 at the idle enabled state. -/
theorem C10_witness :
    stopAlarmSound (AlarmState.mk false false) true = (AlarmState.mk false false, []) ∧
    (playAlarmSound (stopAlarmSound (AlarmState.mk false false) true).1).1.isAlarmActive = true :=
  ⟨(C10_stop_when_idle_noop (AlarmState.mk false false) rfl).1,
   ((C10_stop_when_idle_noop (AlarmState.mk false false) rfl).2 rfl).1⟩

/-!  Helper lemmas about the speed-limit monitor. -/

/-- Over the limit, not yet triggered, no timer running: start the
overspeed timer. -/
theorem monitorStep_start (m : MonitorState) (v t : ℚ)
    (hdis : m.alarm.isAlarmManuallyDisabled = false)
    (htrig : m.alarmTriggered = false)
    (hstart : m.overspeedStart = none) (hv : 60 < v) :
    monitorStep m v t = ({ m with overspeedStart := some t }, []) := by
  simp [monitorStep, hdis, htrig, hstart, SPEED_LIMIT, hv]

/-- Over the limit with the timer running for at most the threshold:
no change. -/
theorem monitorStep_wait (m : MonitorState) (v t t0 : ℚ)
    (hdis : m.alarm.isAlarmManuallyDisabled = false)
    (htrig : m.alarmTriggered = false)
    (hstart : m.overspeedStart = some t0) (hv : 60 < v) (ht : t - t0 ≤ 2000) :
    monitorStep m v t = (m, []) := by
  have ht' : ¬(t - t0 > THRESHOLD_TIME_MS) := by
    rw [THRESHOLD_TIME_MS]; exact not_lt.mpr ht
  simp [monitorStep, hdis, htrig, hstart, SPEED_LIMIT, hv, ht']

/-- Over the limit with the timer expired: trigger the alarm once. -/
theorem monitorStep_trigger (m : MonitorState) (v t t0 : ℚ)
    (hdis : m.alarm.isAlarmManuallyDisabled = false)
    (htrig : m.alarmTriggered = false)
    (hstart : m.overspeedStart = some t0) (hv : 60 < v) (ht : 2000 < t - t0)
    (hact : m.alarm.isAlarmActive = false) :
    monitorStep m v t =
      ({ m with
          isOverSpeedLimit := true
          alarmTriggered := true
          alarm := { m.alarm with isAlarmActive := true } }, [true]) := by
  have ht' : t - t0 > THRESHOLD_TIME_MS := by rw [THRESHOLD_TIME_MS]; exact ht
  simp [monitorStep, hdis, htrig, hstart, SPEED_LIMIT, hv, ht',
    playAlarmSound_fires m.alarm hact hdis]

/-- Already triggered and still above the hysteresis band: no change. -/
theorem monitorStep_high_triggered (m : MonitorState) (v t : ℚ)
    (hdis : m.alarm.isAlarmManuallyDisabled = false)
    (htrig : m.alarmTriggered = true) (hv : 57 < v) :
    monitorStep m v t = (m, []) := by
  have h1 : ¬(v > SPEED_LIMIT ∧ ¬m.alarmTriggered = true) := by simp [htrig]
  have h2 : ¬(v ≤ SPEED_LIMIT * 0.95) := by
    rw [SPEED_LIMIT]; norm_num; linarith
  simp only [monitorStep, hdis, Bool.false_eq_true, if_false]
  rw [if_neg, if_neg h2]
  simp [htrig]

/-- Not triggered, not displaying an alert, sample at or below the
hysteresis threshold: only the overspeed timer is cleared. -/
theorem monitorStep_low_reset (m : MonitorState) (v t : ℚ)
    (hdis : m.alarm.isAlarmManuallyDisabled = false)
    (hover : m.isOverSpeedLimit = false) (hv : v ≤ 57) :
    monitorStep m v t = ({ m with overspeedStart := none }, []) := by
  have h1 : ¬(v > SPEED_LIMIT) := by rw [SPEED_LIMIT]; linarith
  have h2 : v ≤ SPEED_LIMIT * 0.95 := by rw [SPEED_LIMIT]; norm_num; linarith
  simp [monitorStep, hdis, h1, h2, hover]

/-- A sample strictly inside the dead zone `(57, 60)` preserves the
triggered flag and the alarm flags and broadcasts nothing, from any
monitor state. -/
theorem monitorStep_deadzone (m : MonitorState) (v t : ℚ)
    (hv1 : 57 < v) (hv2 : v < 60) :
    (monitorStep m v t).1.alarmTriggered = m.alarmTriggered ∧
    (monitorStep m v t).1.alarm = m.alarm ∧
    (monitorStep m v t).2 = [] := by
  cases hdis : m.alarm.isAlarmManuallyDisabled with
  | true => simp [monitorStep, hdis]
  | false =>
    have h1 : ¬(v > SPEED_LIMIT) := by rw [SPEED_LIMIT]; linarith
    have h2 : ¬(v ≤ SPEED_LIMIT * 0.95) := by
      rw [SPEED_LIMIT]; norm_num; linarith
    simp [monitorStep, hdis, h1, h2]

/-- Running the monitor over the concatenation of two sample lists. -/
theorem monitorRun_append (xs ys : List (ℚ × ℚ)) : ∀ m : MonitorState,
    monitorRun m (xs ++ ys) =
      ((monitorRun (monitorRun m xs).1 ys).1,
       (monitorRun m xs).2 ++ (monitorRun (monitorRun m xs).1 ys).2) := by
  induction xs with
  | nil => intro m; simp [monitorRun]
  | cons p rest ih => intro m; simp [monitorRun, ih (monitorStep m p.1 p.2).1]

/-- Waiting phase: over-limit samples within the debounce threshold leave
the waiting state unchanged. -/
theorem monitorRun_wait (samples : List (ℚ × ℚ)) : ∀ (m : MonitorState) (t0 : ℚ),
    m.alarm.isAlarmManuallyDisabled = false → m.alarmTriggered = false →
    m.overspeedStart = some t0 →
    (∀ p ∈ samples, 60 < p.1 ∧ p.2 - t0 ≤ 2000) →
    monitorRun m samples = (m, []) := by
  induction samples with
  | nil => intro m t0 _ _ _ _; rfl
  | cons p rest ih =>
    intro m t0 hdis htrig hstart hall
    have hp := hall p (List.mem_cons_self p rest)
    have hstep := monitorStep_wait m p.1 p.2 t0 hdis htrig hstart hp.1 hp.2
    simp [monitorRun, hstep,
      ih m t0 hdis htrig hstart fun q hq => hall q (List.mem_cons_of_mem _ hq)]

/-- Low phase: samples at or below the hysteresis threshold never trigger
and leave the triggered flag clear. -/
theorem monitorRun_low (samples : List (ℚ × ℚ)) : ∀ m : MonitorState,
    m.isOverSpeedLimit = false → m.alarmTriggered = false →
    m.alarm.isAlarmManuallyDisabled = false →
    (∀ p ∈ samples, p.1 ≤ 57) →
    (monitorRun m samples).2 = [] ∧
    (monitorRun m samples).1.alarmTriggered = false := by
  induction samples with
  | nil => intro m _ htrig _ _; exact ⟨rfl, htrig⟩
  | cons p rest ih =>
    intro m hover htrig hdis hall
    have hstep := monitorStep_low_reset m p.1 p.2 hdis hover
      (hall p (List.mem_cons_self p rest))
    have ihx := ih { m with overspeedStart := none } hover htrig hdis
      fun q hq => hall q (List.mem_cons_of_mem _ hq)
    simp [monitorRun, hstep, ihx.1, ihx.2]

/-- Triggered phase: samples above the hysteresis threshold leave the
triggered monitor unchanged and broadcast nothing. -/
theorem monitorRun_high_triggered (samples : List (ℚ × ℚ)) : ∀ m : MonitorState,
    m.alarm.isAlarmManuallyDisabled = false → m.alarmTriggered = true →
    (∀ p ∈ samples, 57 < p.1) →
    monitorRun m samples = (m, []) := by
  induction samples with
  | nil => intro m _ _ _; rfl
  | cons p rest ih =>
    intro m hdis htrig hall
    have hstep := monitorStep_high_triggered m p.1 p.2 hdis htrig
      (hall p (List.mem_cons_self p rest))
    simp [monitorRun, hstep,
      ih m hdis htrig fun q hq => hall q (List.mem_cons_of_mem _ hq)]

/-- Dead-zone phase: samples strictly between the hysteresis threshold and
the limit preserve the triggered flag and the alarm flags from any state. -/
theorem monitorRun_deadzone (samples : List (ℚ × ℚ)) : ∀ m : MonitorState,
    (∀ p ∈ samples, 57 < p.1 ∧ p.1 < 60) →
    (monitorRun m samples).1.alarmTriggered = m.alarmTriggered ∧
    (monitorRun m samples).1.alarm = m.alarm ∧
    (monitorRun m samples).2 = [] := by
  induction samples with
  | nil => intro m _; exact ⟨rfl, rfl, rfl⟩
  | cons p rest ih =>
    intro m hall
    have hp := hall p (List.mem_cons_self p rest)
    have hstep := monitorStep_deadzone m p.1 p.2 hp.1 hp.2
    have ihx := ih (monitorStep m p.1 p.2).1 fun q hq => hall q (List.mem_cons_of_mem _ hq)
    refine ⟨?_, ?_, ?_⟩
    · simp [monitorRun]; rw [ihx.1, hstep.1]
    · simp [monitorRun]; rw [ihx.2.1, hstep.2.1]
    · simp [monitorRun, hstep.2.2, ihx.2.2]

/-- From the waiting state over a fresh alarm, a run of over-limit samples
one of which exceeds the debounce threshold triggers the alarm exactly
once: the broadcasts are exactly `[true]`. -/
theorem monitorRun_waiting_triggers (rest : List (ℚ × ℚ)) : ∀ t1 : ℚ,
    (∀ p ∈ rest, 60 < p.1) → (∃ p ∈ rest, 2000 < p.2 - t1) →
    (monitorRun (MonitorState.mk false (some t1) false AlarmState.fresh) rest).2 = [true] ∧
    (monitorRun (MonitorState.mk false (some t1) false AlarmState.fresh) rest).1.alarmTriggered
      = true := by
  induction rest with
  | nil =>
    intro t1 _ hex
    rcases hex with ⟨p, hp, _⟩
    exact absurd hp (List.not_mem_nil p)
  | cons p tl ih =>
    intro t1 hall hex
    by_cases h2000 : 2000 < p.2 - t1
    · have hstep := monitorStep_trigger (MonitorState.mk false (some t1) false AlarmState.fresh)
        p.1 p.2 t1 rfl rfl rfl (hall p (List.mem_cons_self p tl)) h2000 rfl
      have hrest := monitorRun_high_triggered tl
        (MonitorState.mk true (some t1) true (AlarmState.mk true false)) rfl rfl
        fun q hq => lt_trans (by norm_num) (hall q (List.mem_cons_of_mem _ hq))
      constructor
      · show (monitorRun _ (p :: tl)).2 = [true]
        simp only [monitorRun, hstep]
        rw [show ({ MonitorState.mk false (some t1) false AlarmState.fresh with
            isOverSpeedLimit := true
            alarmTriggered := true
            alarm := { AlarmState.fresh with isAlarmActive := true } })
          = MonitorState.mk true (some t1) true (AlarmState.mk true false) from rfl] at *
        rw [hrest]
        rfl
      · show (monitorRun _ (p :: tl)).1.alarmTriggered = true
        simp only [monitorRun, hstep]
        rw [show ({ MonitorState.mk false (some t1) false AlarmState.fresh with
            isOverSpeedLimit := true
            alarmTriggered := true
            alarm := { AlarmState.fresh with isAlarmActive := true } })
          = MonitorState.mk true (some t1) true (AlarmState.mk true false) from rfl] at *
        rw [hrest]
    · have hstep := monitorStep_wait (MonitorState.mk false (some t1) false AlarmState.fresh)
        p.1 p.2 t1 rfl rfl rfl (hall p (List.mem_cons_self p tl)) (le_of_not_lt h2000)
      rcases hex with ⟨q, hq, hqt⟩
      rcases List.mem_cons.mp hq with hq1 | hq2
      · exact absurd (hq1 ▸ hqt) h2000
      · have ihx := ih t1 (fun r hr => hall r (List.mem_cons_of_mem _ hr)) ⟨q, hq2, hqt⟩
        constructor
        · show (monitorRun _ (p :: tl)).2 = [true]
          simp only [monitorRun, hstep]
          rw [ihx.1]
          rfl
        · show (monitorRun _ (p :: tl)).1.alarmTriggered = true
          simp only [monitorRun, hstep]
          rw [ihx.2]

/-- Claim C3: for the speed-limit monitor with `SPEED_LIMIT = 60` km/h:
a sample sequence that stays above 60 for less than 2000 ms and then drops
to at most 57 km/h never triggers the alarm; staying above 60 with one
sample past the 2000 ms debounce triggers exactly one `active = true`
broadcast; and after triggering, samples strictly between 57 and 60 km/h
neither clear the triggered flag nor change the alarm flags. -/
theorem C3_speed_limit_monitor :
    (∀ pre post : List (ℚ × ℚ),
      (∀ p ∈ pre, 60 < p.1) → (∀ p ∈ post, p.1 ≤ 57) →
      (∀ p ∈ pre, ∀ q ∈ pre, p.2 - q.2 < 2000) →
      (monitorRun MonitorState.fresh (pre ++ post)).2 = [] ∧
      (monitorRun MonitorState.fresh (pre ++ post)).1.alarmTriggered = false) ∧
    (∀ (v1 t1 : ℚ) (rest : List (ℚ × ℚ)),
      60 < v1 → (∀ p ∈ rest, 60 < p.1) → (∃ p ∈ rest, 2000 < p.2 - t1) →
      (monitorRun MonitorState.fresh ((v1, t1) :: rest)).2 = [true] ∧
      (monitorRun MonitorState.fresh ((v1, t1) :: rest)).1.alarmTriggered = true) ∧
    (∀ (m : MonitorState) (mid : List (ℚ × ℚ)),
      m.alarmTriggered = true → (∀ p ∈ mid, 57 < p.1 ∧ p.1 < 60) →
      (monitorRun m mid).1.alarmTriggered = true ∧
      (monitorRun m mid).1.alarm = m.alarm ∧
      (monitorRun m mid).2 = []) := by
  refine ⟨?_, ?_, ?_⟩
  · intro pre post hpre hpost hspan
    cases pre with
    | nil =>
      have h := monitorRun_low post MonitorState.fresh rfl rfl rfl hpost
      simpa using h
    | cons p0 tl =>
      have hstep := monitorStep_start MonitorState.fresh p0.1 p0.2 rfl rfl rfl
        (hpre p0 (List.mem_cons_self p0 tl))
      have hwait := monitorRun_wait tl
        ({ MonitorState.fresh with overspeedStart := some p0.2 }) p0.2 rfl rfl rfl
        fun q hq => ⟨hpre q (List.mem_cons_of_mem _ hq),
          le_of_lt (hspan q (List.mem_cons_of_mem _ hq) p0 (List.mem_cons_self p0 tl))⟩
      have hlow := monitorRun_low post
        ({ MonitorState.fresh with overspeedStart := some p0.2 }) rfl rfl rfl hpost
      have heq : monitorRun MonitorState.fresh ((p0 :: tl) ++ post)
          = ((monitorRun ({ MonitorState.fresh with overspeedStart := some p0.2 }) post).1,
             (monitorRun ({ MonitorState.fresh with overspeedStart := some p0.2 }) post).2) := by
        rw [List.cons_append]
        simp [monitorRun, hstep, monitorRun_append tl post, hwait]
      rw [heq]
      exact ⟨hlow.1, hlow.2⟩
  · intro v1 t1 rest hv hall hex
    have hstep := monitorStep_start MonitorState.fresh v1 t1 rfl rfl rfl hv
    have htl := monitorRun_waiting_triggers rest t1 hall hex
    constructor
    · show (monitorRun _ ((v1, t1) :: rest)).2 = [true]
      simp only [monitorRun, hstep]
      rw [show ({ MonitorState.fresh with overspeedStart := some t1 })
        = MonitorState.mk false (some t1) false AlarmState.fresh from rfl]
      rw [htl.1]
      rfl
    · show (monitorRun _ ((v1, t1) :: rest)).1.alarmTriggered = true
      simp only [monitorRun, hstep]
      rw [show ({ MonitorState.fresh with overspeedStart := some t1 })
        = MonitorState.mk false (some t1) false AlarmState.fresh from rfl]
      rw [htl.2]
  · intro m mid htrig hall
    have h := monitorRun_deadzone mid m hall
    exact ⟨by rw [h.1, htrig], h.2.1, h.2.2⟩

/-- Witness for C3: a 65 km/h burst shorter than the debounce followed by
a drop to 50 never triggers; 65 km/h held past 2000 ms triggers exactly
once; a 58 km/h sample after triggering keeps the alarm held. -/
theorem C3_witness :
    ((monitorRun MonitorState.fresh ([((65 : ℚ), (0 : ℚ)), (65, 1000)] ++ [(50, 2500)])).2 = [] ∧
     (monitorRun MonitorState.fresh
        ([((65 : ℚ), (0 : ℚ)), (65, 1000)] ++ [(50, 2500)])).1.alarmTriggered = false) ∧
    (monitorRun MonitorState.fresh (((65 : ℚ), (0 : ℚ)) :: [(65, 2500)])).2 = [true] ∧
    (monitorRun (MonitorState.mk true (some 0) true (AlarmState.mk true false))
        [((58 : ℚ), (3000 : ℚ))]).1.alarmTriggered = true :=
  ⟨C3_speed_limit_monitor.1 [((65 : ℚ), (0 : ℚ)), (65, 1000)] [(50, 2500)]
      (by with_unfolding_all decide) (by with_unfolding_all decide)
      (by with_unfolding_all decide),
   (C3_speed_limit_monitor.2.1 65 0 [(65, 2500)] (by with_unfolding_all decide)
      (by with_unfolding_all decide)
      ⟨(65, 2500), List.mem_singleton.mpr rfl, by with_unfolding_all decide⟩).1,
   (C3_speed_limit_monitor.2.2 (MonitorState.mk true (some 0) true (AlarmState.mk true false))
      [((58 : ℚ), (3000 : ℚ))] rfl (by with_unfolding_all decide)).1⟩

/-!  Helper lemmas about the proximity logic of `updateLocation`. -/

/-- Once the proximity alert has been shown, a single `updateLocation` call
never invokes the proximity trigger again: the flag stays set, the trigger
count is unchanged, and nothing is broadcast. -/
theorem updateLocation_shown_frame (M : MathLib) (college : CollegeInfo)
    (s : SessionState) (loc : Option Location) (t : ℚ)
    (h : s.hasShownProximityAlert = true) :
    (updateLocation M college s loc t).1.hasShownProximityAlert = true ∧
    (updateLocation M college s loc t).1.proximityTriggerCount = s.proximityTriggerCount ∧
    (updateLocation M college s loc t).2 = [] := by
  cases loc with
  | none => exact ⟨h, rfl, rfl⟩
  | some l =>
    unfold updateLocation
    dsimp only
    split
    · exact ⟨h, rfl, rfl⟩
    · split
      · split
        · rw [if_neg (by simp [h])]
          exact ⟨h, rfl, rfl⟩
        · split
          · exact ⟨h, rfl, rfl⟩
          · exact ⟨h, rfl, rfl⟩
      · exact ⟨h, rfl, rfl⟩

/-- Before the proximity alert has been shown, a single `updateLocation`
call either leaves the flag clear and the trigger count unchanged, or sets
the flag and increments the trigger count by one. -/
theorem updateLocation_count_step (M : MathLib) (college : CollegeInfo)
    (s : SessionState) (loc : Option Location) (t : ℚ)
    (h : s.hasShownProximityAlert = false) :
    ((updateLocation M college s loc t).1.proximityTriggerCount = s.proximityTriggerCount ∧
     (updateLocation M college s loc t).1.hasShownProximityAlert = false) ∨
    ((updateLocation M college s loc t).1.proximityTriggerCount = s.proximityTriggerCount + 1 ∧
     (updateLocation M college s loc t).1.hasShownProximityAlert = true) := by
  cases loc with
  | none => exact Or.inl ⟨rfl, h⟩
  | some l =>
    unfold updateLocation
    dsimp only
    split
    · exact Or.inl ⟨rfl, h⟩
    · split
      · split
        · split
          · exact Or.inr ⟨rfl, rfl⟩
          · exact Or.inl ⟨rfl, h⟩
        · split
          · exact Or.inl ⟨rfl, h⟩
          · exact Or.inl ⟨rfl, h⟩
      · exact Or.inl ⟨rfl, h⟩

/-- Once the proximity alert has been shown, a whole run of
`updateLocation` calls never invokes the proximity trigger again. -/
theorem sessionRun_shown_frame (M : MathLib) (college : CollegeInfo)
    (inputs : List (Option Location × ℚ)) : ∀ s : SessionState,
    s.hasShownProximityAlert = true →
    (sessionRun M college s inputs).1.hasShownProximityAlert = true ∧
    (sessionRun M college s inputs).1.proximityTriggerCount = s.proximityTriggerCount ∧
    (sessionRun M college s inputs).2 = [] := by
  induction inputs with
  | nil => intro s h; exact ⟨h, rfl, rfl⟩
  | cons p rest ih =>
    intro s h
    have hstep := updateLocation_shown_frame M college s p.1 p.2 h
    have ihx := ih (updateLocation M college s p.1 p.2).1 hstep.1
    refine ⟨ihx.1, ?_, ?_⟩
    · show (sessionRun M college _ (p :: rest)).1.proximityTriggerCount = _
      simp only [sessionRun]
      rw [ihx.2.1, hstep.2.1]
    · show (sessionRun M college _ (p :: rest)).2 = []
      simp only [sessionRun]
      rw [hstep.2.2, ihx.2.2]
      rfl

/-- Invariant: the proximity trigger count is `0` while the alert has not
been shown, and at most `1` once it has. -/
theorem sessionRun_inv (M : MathLib) (college : CollegeInfo)
    (inputs : List (Option Location × ℚ)) : ∀ s : SessionState,
    (s.hasShownProximityAlert = true → s.proximityTriggerCount ≤ 1) →
    (s.hasShownProximityAlert = false → s.proximityTriggerCount = 0) →
    ((sessionRun M college s inputs).1.hasShownProximityAlert = true →
      (sessionRun M college s inputs).1.proximityTriggerCount ≤ 1) ∧
    ((sessionRun M college s inputs).1.hasShownProximityAlert = false →
      (sessionRun M college s inputs).1.proximityTriggerCount = 0) := by
  induction inputs with
  | nil => intro s h1 h0; exact ⟨h1, h0⟩
  | cons p rest ih =>
    intro s h1 h0
    have hrun : sessionRun M college s (p :: rest)
        = ((sessionRun M college (updateLocation M college s p.1 p.2).1 rest).1,
           (updateLocation M college s p.1 p.2).2 ++
             (sessionRun M college (updateLocation M college s p.1 p.2).1 rest).2) := rfl
    rw [hrun]
    cases hsh : s.hasShownProximityAlert with
    | true =>
      have hstep := updateLocation_shown_frame M college s p.1 p.2 hsh
      exact ih _ (fun _ => by rw [hstep.2.1]; exact h1 hsh)
        (fun hc => absurd hstep.1 (by rw [hc]; exact Bool.false_ne_true))
    | false =>
      have hc0 := h0 hsh
      rcases updateLocation_count_step M college s p.1 p.2 hsh with ⟨hcnt, hflag⟩ | ⟨hcnt, hflag⟩
      · exact ih _ (fun hc => absurd hflag (by rw [hc]; exact Bool.noConfusion))
          (fun _ => by rw [hcnt]; exact hc0)
      · exact ih _ (fun _ => by rw [hcnt, hc0]) 
          (fun hc => absurd hflag (by rw [hc]; exact Bool.false_ne_true))

/-- Claim C6: within a single tracking session, the proximity alarm fires
at most once — from a fresh session the proximity trigger is invoked at
most one time over any input sequence, and once `hasShownProximityAlert`
is set no later `updateLocation` call invokes the trigger again or clears
the flag (in particular, leaving the radius does not clear it). -/
theorem C6_proximity_alert_at_most_once :
    (∀ (M : MathLib) (college : CollegeInfo) (s : SessionState)
      (inputs : List (Option Location × ℚ)),
      s.hasShownProximityAlert = true →
      (sessionRun M college s inputs).1.hasShownProximityAlert = true ∧
      (sessionRun M college s inputs).1.proximityTriggerCount = s.proximityTriggerCount ∧
      (sessionRun M college s inputs).2 = []) ∧
    (∀ (M : MathLib) (college : CollegeInfo) (inputs : List (Option Location × ℚ)),
      (sessionRun M college SessionState.fresh inputs).1.proximityTriggerCount ≤ 1) := by
  refine ⟨fun M college inputs s h => sessionRun_shown_frame M college s inputs h, ?_⟩
  intro M college inputs
  have hinv := sessionRun_inv M college inputs SessionState.fresh
    (fun h => absurd h (by exact Bool.false_ne_true)) (fun _ => rfl)
  cases hsh : (sessionRun M college SessionState.fresh inputs).1.hasShownProximityAlert with
  | true => exact hinv.1 hsh
  | false => rw [hinv.2 hsh]; exact Nat.zero_le 1

/-- Witness for C6: a session that has already shown the alert processes a
further in-radius fix without re-triggering, and a fresh session triggers
at most once. -/
theorem C6_witness :
    (sessionRun MathLib.zero
        (CollegeInfo.mk (Location.mk (some 17) (some 83) none none none) 500)
        (SessionState.mk SpeedCalculator.init false true 0 AlarmState.fresh 1)
        [(some (Location.mk (some 17) (some 83) none (some 10) (some 3000)), 3000)]
      ).1.proximityTriggerCount = 1 ∧
    (sessionRun MathLib.zero
        (CollegeInfo.mk (Location.mk (some 17) (some 83) none none none) 500)
        SessionState.fresh
        [(some (Location.mk (some 17) (some 83) none (some 10) (some 3000)), 3000)]
      ).1.proximityTriggerCount ≤ 1 :=
  ⟨(C6_proximity_alert_at_most_once.1 MathLib.zero
      (CollegeInfo.mk (Location.mk (some 17) (some 83) none none none) 500)
      (SessionState.mk SpeedCalculator.init false true 0 AlarmState.fresh 1)
      [(some (Location.mk (some 17) (some 83) none (some 10) (some 3000)), 3000)] rfl).2.1,
   C6_proximity_alert_at_most_once.2 MathLib.zero
      (CollegeInfo.mk (Location.mk (some 17) (some 83) none none none) 500)
      [(some (Location.mk (some 17) (some 83) none (some 10) (some 3000)), 3000)]⟩

/-!  Claims about the speed calculator. -/

/-- Claim C7: a fix that is null or missing latitude, longitude, or
timestamp is rejected by `addLocation`: the previously emitted speed is
returned, no error is raised, and the whole calculator state (location
history, speed-sample history, last emitted speed, last timestamp,
calibration factor) is unchanged. -/
theorem C7_invalid_fix_noop (M : MathLib) (s : SpeedCalculator)
    (loc : Option Location) (dateNow : ℚ)
    (h : loc = none ∨ ∃ l, loc = some l ∧
      (l.latitude = none ∨ l.longitude = none ∨ l.timestamp = none)) :
    SpeedCalculator.addLocation M s loc dateNow = (s, s.lastCalculatedSpeed) := by
  rcases h with h | ⟨l, rfl, hl⟩
  · rw [h]
    rfl
  · rcases hl with hl | hl | hl <;>
      simp [SpeedCalculator.addLocation, hl]

/-- Witness for C7: a fix with a missing latitude is ignored. -/
theorem C7_witness :
    SpeedCalculator.addLocation MathLib.zero SpeedCalculator.init
      (some (Location.mk none (some 1) none none (some 5))) 0
      = (SpeedCalculator.init, SpeedCalculator.init.lastCalculatedSpeed) :=
  C7_invalid_fix_noop MathLib.zero SpeedCalculator.init
    (some (Location.mk none (some 1) none none (some 5))) 0
    (Or.inr ⟨Location.mk none (some 1) none none (some 5), rfl, Or.inl rfl⟩)

/-- On a calculator whose histories are empty and whose last speed and
timestamp are zero, the value returned by `addLocation` does not depend on
the calibration factor. -/
theorem addLocation_blank_cf (M : MathLib) (loc : Option Location)
    (dateNow : ℚ) (c1 c2 : ℚ) :
    (SpeedCalculator.addLocation M (SpeedCalculator.mk [] [] 0 0 c1) loc dateNow).2 =
    (SpeedCalculator.addLocation M (SpeedCalculator.mk [] [] 0 0 c2) loc dateNow).2 := by
  cases loc with
  | none => rfl
  | some l =>
    by_cases hrej : l.timestamp = none ∨ l.timestamp = some 0 ∨
        l.latitude = none ∨ l.longitude = none
    · simp [SpeedCalculator.addLocation, hrej]
    · rcases hsp : l.speed with _ | sp
      · simp [SpeedCalculator.addLocation, hrej, hsp,
          SpeedCalculator.addLocationDerived, pushWindow, WINDOW_SIZE]
      · by_cases husable : 0 ≤ sp ∧ sp < 200
        · simp [SpeedCalculator.addLocation, hrej, hsp, husable]
        · simp [SpeedCalculator.addLocation, hrej, hsp, husable,
            SpeedCalculator.addLocationDerived, pushWindow, WINDOW_SIZE]

/-- Counterexample to claim C8 as stated: `reset()` does not restore the
calibration factor, so after `setCalibrationFactor(1.2)` the reset state
differs from a newly constructed calculator. -/
theorem C8_counterexample :
    SpeedCalculator.reset (SpeedCalculator.setCalibrationFactor SpeedCalculator.init 1.2)
      ≠ SpeedCalculator.init := by
  with_unfolding_all decide

/-- Claim C8 (amended): `reset()` clears the location history, the
speed-sample history, the last emitted speed and the last timestamp, but
retains the calibration factor; nevertheless `reset()` followed by any
single fix returns the same speed a newly constructed calculator would,
because a single fix never consults the calibration factor. -/
theorem C8_reset_behaves_like_fresh (s : SpeedCalculator) :
    (SpeedCalculator.reset s).locationHistory = [] ∧
    (SpeedCalculator.reset s).speedHistory = [] ∧
    (SpeedCalculator.reset s).lastCalculatedSpeed = 0 ∧
    (SpeedCalculator.reset s).lastTimestamp = 0 ∧
    (SpeedCalculator.reset s).calibrationFactor = s.calibrationFactor ∧
    ∀ (M : MathLib) (loc : Option Location) (dateNow : ℚ),
      (SpeedCalculator.addLocation M (SpeedCalculator.reset s) loc dateNow).2 =
      (SpeedCalculator.addLocation M SpeedCalculator.init loc dateNow).2 :=
  ⟨rfl, rfl, rfl, rfl, rfl,
   fun M loc dateNow => addLocation_blank_cf M loc dateNow s.calibrationFactor 1⟩

/-- Counterexample to claim C9 as stated: after a direct sensor fix (speed
10) followed by a coordinate-only fix, `addLocation` returns `0` (fewer
than two stored locations on the derived path) while `getSpeed()` keeps
returning the stored speed `10`, so `getSpeed` is not the value most
recently returned by `addLocation`. -/
theorem C9_counterexample :
    (SpeedCalculator.addLocation MathLib.zero
      (SpeedCalculator.addLocation MathLib.zero SpeedCalculator.init
        (some (Location.mk (some 0) (some 0) none (some 10) (some 1000))) 1000).1
      (some (Location.mk (some 0) (some 0) none none (some 2000))) 2000).2 = 0 ∧
    SpeedCalculator.getSpeed
      (SpeedCalculator.addLocation MathLib.zero
        (SpeedCalculator.addLocation MathLib.zero SpeedCalculator.init
          (some (Location.mk (some 0) (some 0) none (some 10) (some 1000))) 1000).1
        (some (Location.mk (some 0) (some 0) none none (some 2000))) 2000).1 = 10 ∧
    SpeedCalculator.getSpeed
      (SpeedCalculator.addLocation MathLib.zero
        (SpeedCalculator.addLocation MathLib.zero SpeedCalculator.init
          (some (Location.mk (some 0) (some 0) none (some 10) (some 1000))) 1000).1
        (some (Location.mk (some 0) (some 0) none none (some 2000))) 2000).1 ≠ (0 : ℚ) := by
  refine ⟨?_, ?_, ?_⟩ <;> with_unfolding_all decide

/-- Claim C9 (amended): `getSpeed()` returns the stored last-calculated
speed without recomputation, `0` before any fix has been processed; a
rejected fix returns exactly that stored value; a direct-path fix returns
the one-decimal rounding of the (unrounded) stored value; and a derived
fix with an empty location history returns `0` while leaving the stored
value unchanged — so `getSpeed` can differ from the value most recently
returned by `addLocation`. -/
theorem C9_getSpeed_returns_stored_value :
    SpeedCalculator.getSpeed SpeedCalculator.init = 0 ∧
    (∀ s : SpeedCalculator, SpeedCalculator.getSpeed s = s.lastCalculatedSpeed) ∧
    (∀ (M : MathLib) (s : SpeedCalculator) (l : Location) (dateNow sp : ℚ),
      l.latitude ≠ none → l.longitude ≠ none → l.timestamp ≠ none →
      l.timestamp ≠ some 0 → l.speed = some sp → 0 ≤ sp → sp < 200 →
      (SpeedCalculator.addLocation M s (some l) dateNow).2 =
        round1 (SpeedCalculator.getSpeed
          (SpeedCalculator.addLocation M s (some l) dateNow).1)) ∧
    (∀ (M : MathLib) (s : SpeedCalculator) (l : Location) (dateNow : ℚ),
      l.latitude ≠ none → l.longitude ≠ none → l.timestamp ≠ none →
      l.timestamp ≠ some 0 → l.speed = none → s.locationHistory = [] →
      (SpeedCalculator.addLocation M s (some l) dateNow).2 = 0 ∧
      SpeedCalculator.getSpeed (SpeedCalculator.addLocation M s (some l) dateNow).1 =
        SpeedCalculator.getSpeed s) := by
  refine ⟨rfl, fun _ => rfl, ?_, ?_⟩
  · intro M s l dateNow sp hlat hlon hts hts0 hsp h0 h200
    have hrej : ¬(l.timestamp = none ∨ l.timestamp = some 0 ∨
        l.latitude = none ∨ l.longitude = none) := by
      simp [hlat, hlon, hts, hts0]
    simp only [SpeedCalculator.addLocation, hrej, if_false, hsp]
    rw [if_pos ⟨h0, h200⟩]
    split <;> rfl
  · intro M s l dateNow hlat hlon hts hts0 hsp hloc
    have hrej : ¬(l.timestamp = none ∨ l.timestamp = some 0 ∨
        l.latitude = none ∨ l.longitude = none) := by
      simp [hlat, hlon, hts, hts0]
    simp only [SpeedCalculator.addLocation, hrej, if_false, hsp]
    simp [SpeedCalculator.addLocationDerived, SpeedCalculator.getSpeed,
      hloc, pushWindow, WINDOW_SIZE]

/-- Witness for C9 (amended): concrete direct-path and short-history
derived-path fixes. -/
theorem C9_witness :
    ((SpeedCalculator.addLocation MathLib.zero SpeedCalculator.init
        (some (Location.mk (some 0) (some 0) none (some 10) (some 1000))) 1000).2 =
      round1 (SpeedCalculator.getSpeed
        (SpeedCalculator.addLocation MathLib.zero SpeedCalculator.init
          (some (Location.mk (some 0) (some 0) none (some 10) (some 1000))) 1000).1)) ∧
    ((SpeedCalculator.addLocation MathLib.zero SpeedCalculator.init
        (some (Location.mk (some 0) (some 0) none none (some 2000))) 2000).2 = 0) :=
  ⟨C9_getSpeed_returns_stored_value.2.2.1 MathLib.zero SpeedCalculator.init
      (Location.mk (some 0) (some 0) none (some 10) (some 1000)) 1000 10
      (by simp) (by simp) (by simp) (by simp) rfl (by norm_num) (by norm_num),
   (C9_getSpeed_returns_stored_value.2.2.2 MathLib.zero SpeedCalculator.init
      (Location.mk (some 0) (some 0) none none (some 2000)) 2000
      (by simp) (by simp) (by simp) (by simp) rfl rfl).1⟩

/-- Counterexample to claim C1 as stated: a direct sensor fix of 0 km/h
followed one second later by a direct sensor fix of 100 km/h makes
`addLocation` emit `0` and then `100` — the second emission jumps by 100
km/h although `MAX_ACCELERATION × Δt = 5`, because the direct path skips
the physics constraint whenever the stored previous speed is not
positive. -/
theorem C1_counterexample :
    (SpeedCalculator.addLocation MathLib.zero SpeedCalculator.init
      (some (Location.mk (some 0) (some 0) none (some 0) (some 1000))) 1000).2 = 0 ∧
    (SpeedCalculator.addLocation MathLib.zero
      (SpeedCalculator.addLocation MathLib.zero SpeedCalculator.init
        (some (Location.mk (some 0) (some 0) none (some 0) (some 1000))) 1000).1
      (some (Location.mk (some 0) (some 0) none (some 100) (some 2000))) 2000).2 = 100 ∧
    ¬(|(100 : ℚ) - 0| ≤ MAX_ACCELERATION * ((2000 - 1000) / 1000)) := by
  refine ⟨?_, ?_, ?_⟩ <;> with_unfolding_all decide

/-- Claim C1 (amended): the `5.0 × Δt` acceleration cap is a property of
the `applyPhysicsConstraints` step, relative to the stored previous speed
and with `Δt` measured from the last stored location timestamp (or the
wall clock) to the previous emission: when a previous emission exists and
`Δt` is positive the constrained value differs from the stored previous
speed by at most `MAX_ACCELERATION × Δt`; when `Δt ≤ 0` the previous
speed is returned unchanged; before any emission the raw value passes
through.  `addLocation` applies this step only on the derived path and on
the direct path's blend case, so emitted values can violate the bound. -/
theorem C1_physics_cap_property (s : SpeedCalculator) (rawSpeed dateNow : ℚ) :
    (s.lastTimestamp = 0 →
      SpeedCalculator.applyPhysicsConstraints s rawSpeed dateNow = rawSpeed) ∧
    (s.lastTimestamp ≠ 0 →
      (SpeedCalculator.lastHistoryTime s dateNow - s.lastTimestamp) / 1000 ≤ 0 →
      SpeedCalculator.applyPhysicsConstraints s rawSpeed dateNow = s.lastCalculatedSpeed) ∧
    (s.lastTimestamp ≠ 0 →
      0 < (SpeedCalculator.lastHistoryTime s dateNow - s.lastTimestamp) / 1000 →
      |SpeedCalculator.applyPhysicsConstraints s rawSpeed dateNow - s.lastCalculatedSpeed| ≤
        MAX_ACCELERATION * ((SpeedCalculator.lastHistoryTime s dateNow - s.lastTimestamp) / 1000)) := by
  refine ⟨?_, ?_, ?_⟩
  · intro h0
    simp [SpeedCalculator.applyPhysicsConstraints, h0]
  · intro h0 htd
    simp only [SpeedCalculator.applyPhysicsConstraints]
    rw [if_neg h0, if_pos htd]
  · intro h0 htd
    have hmx : 0 < MAX_ACCELERATION *
        ((SpeedCalculator.lastHistoryTime s dateNow - s.lastTimestamp) / 1000) := by
      apply mul_pos _ htd
      rw [MAX_ACCELERATION]
      norm_num
    simp only [SpeedCalculator.applyPhysicsConstraints]
    rw [if_neg h0, if_neg (not_le.mpr htd)]
    split_ifs with habs hgt
    · rw [add_sub_cancel_left, abs_of_pos hmx]
    · rw [sub_sub_cancel_left, abs_neg, abs_of_pos hmx]
    · exact le_of_not_lt habs

/-- Witness for C1 (amended): the cap applied at a concrete state twenty
km/h after one second. -/
theorem C1_witness :
    |SpeedCalculator.applyPhysicsConstraints (SpeedCalculator.mk [] [] 20 1000 1) 100 2000 -
        (SpeedCalculator.mk [] [] 20 1000 1).lastCalculatedSpeed| ≤
      MAX_ACCELERATION *
        ((SpeedCalculator.lastHistoryTime (SpeedCalculator.mk [] [] 20 1000 1) 2000 -
          (SpeedCalculator.mk [] [] 20 1000 1).lastTimestamp) / 1000) :=
  (C1_physics_cap_property (SpeedCalculator.mk [] [] 20 1000 1) 100 2000).2.2
    (by with_unfolding_all decide) (by with_unfolding_all decide)

/-- Counterexample to claim C2 as stated: with an accepted calibration
factor of 1.2, a direct sensor fix of 100 km/h is emitted as `100`, not as
the calibrated-and-rounded `120` — the direct path never multiplies by the
calibration factor. -/
theorem C2_counterexample :
    (SpeedCalculator.setCalibrationFactor SpeedCalculator.init 1.2).calibrationFactor = 1.2 ∧
    (SpeedCalculator.addLocation MathLib.zero
      (SpeedCalculator.setCalibrationFactor SpeedCalculator.init 1.2)
      (some (Location.mk (some 0) (some 0) none (some 100) (some 1000))) 1000).2 = 100 ∧
    (SpeedCalculator.addLocation MathLib.zero
      (SpeedCalculator.setCalibrationFactor SpeedCalculator.init 1.2)
      (some (Location.mk (some 0) (some 0) none (some 100) (some 1000))) 1000
      ).1.lastCalculatedSpeed = 100 ∧
    round1 ((100 : ℚ) * 1.2) = 120 ∧
    (SpeedCalculator.addLocation MathLib.zero
      (SpeedCalculator.setCalibrationFactor SpeedCalculator.init 1.2)
      (some (Location.mk (some 0) (some 0) none (some 100) (some 1000))) 1000).2 ≠
      round1 ((100 : ℚ) * 1.2) := by
  refine ⟨?_, ?_, ?_, ?_, ?_⟩ <;> with_unfolding_all decide

/-- Claim C2 (amended): `setCalibrationFactor(f)` is accepted exactly when
`0.5 < f < 1.5` and silently ignored otherwise; on the derived path the
stored and returned speed equals the physics-constrained weighted average
multiplied by the calibration factor and rounded to one decimal place;
but on the direct-sensor path the calibration factor is not applied — the
stored speed is the unrounded physics-constrained blend (or the raw
sensor value when no positive previous estimate with at least two speed
samples exists) and the returned value is its one-decimal rounding. -/
theorem C2_calibration_and_rounding :
    (∀ (s : SpeedCalculator) (f : ℚ),
      (0.5 < f ∧ f < 1.5 →
        SpeedCalculator.setCalibrationFactor s f = { s with calibrationFactor := f }) ∧
      (¬(0.5 < f ∧ f < 1.5) → SpeedCalculator.setCalibrationFactor s f = s)) ∧
    (∀ (M : MathLib) (s : SpeedCalculator) (dateNow : ℚ),
      2 ≤ s.locationHistory.length →
      0 < (SpeedCalculator.segmentTotals M s dateNow).2.1 →
      (SpeedCalculator.calculateCurrentSpeed M s dateNow).2 =
        round1 (SpeedCalculator.applyPhysicsConstraints s
          ((SpeedCalculator.segmentTotals M s dateNow).1 /
            (SpeedCalculator.segmentTotals M s dateNow).2.1) dateNow * s.calibrationFactor) ∧
      (SpeedCalculator.calculateCurrentSpeed M s dateNow).1.lastCalculatedSpeed =
        (SpeedCalculator.calculateCurrentSpeed M s dateNow).2) ∧
    (∀ (M : MathLib) (s : SpeedCalculator) (l : Location) (dateNow sp : ℚ),
      l.latitude ≠ none → l.longitude ≠ none → l.timestamp ≠ none →
      l.timestamp ≠ some 0 → l.speed = some sp → 0 ≤ sp → sp < 200 →
      ((0 < s.lastCalculatedSpeed ∧
          1 < (pushWindow s.speedHistory (SpeedCalculator.directSample l sp)).length →
        (SpeedCalculator.addLocation M s (some l) dateNow).1.lastCalculatedSpeed =
          SpeedCalculator.applyPhysicsConstraints
            { s with speedHistory := pushWindow s.speedHistory (SpeedCalculator.directSample l sp) }
            (sp * 0.7 + s.lastCalculatedSpeed * 0.3) dateNow) ∧
       (¬(0 < s.lastCalculatedSpeed ∧
          1 < (pushWindow s.speedHistory (SpeedCalculator.directSample l sp)).length) →
        (SpeedCalculator.addLocation M s (some l) dateNow).1.lastCalculatedSpeed = sp) ∧
       (SpeedCalculator.addLocation M s (some l) dateNow).2 =
         round1 ((SpeedCalculator.addLocation M s (some l) dateNow).1.lastCalculatedSpeed))) := by
  refine ⟨?_, ?_, ?_⟩
  · intro s f
    constructor
    · intro h
      simp [SpeedCalculator.setCalibrationFactor, h]
    · intro h
      simp [SpeedCalculator.setCalibrationFactor, h]
  · intro M s dateNow hlen hw
    simp only [SpeedCalculator.calculateCurrentSpeed]
    rw [if_neg (not_lt.mpr hlen)]
    rw [if_pos hw]
    exact ⟨rfl, rfl⟩
  · intro M s l dateNow sp hlat hlon hts hts0 hsp h0 h200
    have hrej : ¬(l.timestamp = none ∨ l.timestamp = some 0 ∨
        l.latitude = none ∨ l.longitude = none) := by
      simp [hlat, hlon, hts, hts0]
    refine ⟨?_, ?_, ?_⟩
    · intro hcond
      simp only [SpeedCalculator.addLocation, hrej, if_false, hsp]
      rw [if_pos ⟨h0, h200⟩]
      rw [if_pos hcond]
    · intro hcond
      simp only [SpeedCalculator.addLocation, hrej, if_false, hsp]
      rw [if_pos ⟨h0, h200⟩]
      rw [if_neg hcond]
    · simp only [SpeedCalculator.addLocation, hrej, if_false, hsp]
      rw [if_pos ⟨h0, h200⟩]
      split <;> rfl

/-- Witness for C2 (amended): an accepted and a rejected calibration
factor; a two-fix derived-path run with positive total weight; and a
direct-path fix on a fresh calculator. -/
theorem C2_witness :
    (SpeedCalculator.setCalibrationFactor SpeedCalculator.init 1.2 =
      { SpeedCalculator.init with calibrationFactor := 1.2 }) ∧
    (SpeedCalculator.setCalibrationFactor SpeedCalculator.init 2 = SpeedCalculator.init) ∧
    ((SpeedCalculator.calculateCurrentSpeed MathLib.zero
        (SpeedCalculator.mk
          [Location.mk (some 0) (some 0) none none (some 1000),
           Location.mk (some 1) (some 1) none none (some 2000)] [] 0 0 1) 2500).2 =
      round1 (SpeedCalculator.applyPhysicsConstraints
        (SpeedCalculator.mk
          [Location.mk (some 0) (some 0) none none (some 1000),
           Location.mk (some 1) (some 1) none none (some 2000)] [] 0 0 1)
        ((SpeedCalculator.segmentTotals MathLib.zero
            (SpeedCalculator.mk
              [Location.mk (some 0) (some 0) none none (some 1000),
               Location.mk (some 1) (some 1) none none (some 2000)] [] 0 0 1) 2500).1 /
          (SpeedCalculator.segmentTotals MathLib.zero
            (SpeedCalculator.mk
              [Location.mk (some 0) (some 0) none none (some 1000),
               Location.mk (some 1) (some 1) none none (some 2000)] [] 0 0 1) 2500).2.1) 2500 *
        (SpeedCalculator.mk
          [Location.mk (some 0) (some 0) none none (some 1000),
           Location.mk (some 1) (some 1) none none (some 2000)] [] 0 0 1).calibrationFactor)) ∧
    ((SpeedCalculator.addLocation MathLib.zero SpeedCalculator.init
        (some (Location.mk (some 0) (some 0) none (some 100) (some 1000))) 1000).2 =
      round1 ((SpeedCalculator.addLocation MathLib.zero SpeedCalculator.init
        (some (Location.mk (some 0) (some 0) none (some 100) (some 1000))) 1000
        ).1.lastCalculatedSpeed)) :=
  ⟨(C2_calibration_and_rounding.1 SpeedCalculator.init 1.2).1
      (by constructor <;> with_unfolding_all decide),
   (C2_calibration_and_rounding.1 SpeedCalculator.init 2).2
      (by intro h; exact absurd h.2 (by with_unfolding_all decide)),
   (C2_calibration_and_rounding.2.1 MathLib.zero
      (SpeedCalculator.mk
        [Location.mk (some 0) (some 0) none none (some 1000),
         Location.mk (some 1) (some 1) none none (some 2000)] [] 0 0 1) 2500
      (by with_unfolding_all decide) (by with_unfolding_all decide)).1,
   (C2_calibration_and_rounding.2.2 MathLib.zero SpeedCalculator.init
      (Location.mk (some 0) (some 0) none (some 100) (some 1000)) 1000 100
      (by simp) (by simp) (by simp) (by simp) rfl (by norm_num) (by norm_num)).2.2⟩
